import Mathlib

/-
Verification of the extension_endpoint gateway (src/extension_endpoint/views.py
and src/extension_endpoint/validators.py).

The Python code is shallowly embedded: strings are lists of characters
(`PyStr`), JSON values are the inductive `JVal`, the Django cache entry for a
single rate-limit key is an `Option CacheEntry` together with an explicit
current time, outbound HTTP calls are oracle values supplied as arguments, and
code that can raise an unhandled exception returns `Option`/a `raised`
constructor.  Every definition is translated line by line from the source file
it names.
-/

/-- Python strings, embedded as lists of characters. -/
abbrev PyStr := List Char

/-- Embedding of Python `s.startswith(p)`: `pyStartswith p s` is true when `p`
is an initial segment of `s`. -/
def pyStartswith : PyStr → PyStr → Bool
  | [], _ => true
  | _ :: _, [] => false
  | p :: ps, c :: cs => if p = c then pyStartswith ps cs else false

/-- Embedding of Python `needle in hay` for strings (substring containment). -/
def pyIn (needle : PyStr) : PyStr → Bool
  | [] => pyStartswith needle []
  | c :: rest => pyStartswith needle (c :: rest) || pyIn needle rest

theorem pyStartswith_self (p : PyStr) : pyStartswith p p = true := by
  induction p with
  | nil => rfl
  | cons c cs ih => simp [pyStartswith, ih]

theorem pyStartswith_append (p t : PyStr) : pyStartswith p (p ++ t) = true := by
  induction p with
  | nil => rfl
  | cons c cs ih => simp [pyStartswith, ih]

theorem pyIn_append_left (h n : PyStr) : pyIn n (h ++ n) = true := by
  induction h with
  | nil =>
    cases n with
    | nil => rfl
    | cons c cs => simp [pyIn, pyStartswith_self]
  | cons c cs ih => simp [pyIn, ih]

/-- JSON values, used for request bodies and `JsonResponse` payloads. -/
inductive JVal where
  | null : JVal
  | bool : Bool → JVal
  | str : PyStr → JVal
  | num : Int → JVal
  | arr : List JVal → JVal
  | obj : List (PyStr × JVal) → JVal

/-- Lookup of a key in a JSON object's field list (Python `d.get(k)` /
`k in d`, with `none` meaning the key is absent). -/
def getField (fields : List (PyStr × JVal)) (k : PyStr) : Option JVal :=
  match fields with
  | [] => none
  | (k2, v) :: rest => if k2 = k then some v else getField rest k

/-- Field lookup on a `JVal` that may or may not be an object. -/
def jGet (data : JVal) (k : PyStr) : Option JVal :=
  match data with
  | .obj fields => getField fields k
  | _ => none

/-- A `JsonResponse`: body fields in order, plus HTTP status code. -/
abbrev JResponse := List (PyStr × JVal) × Nat

/-! ## Rate limiter (views.py lines 43-147)

The Django cache is modelled, for the single key
`ratelimit:extension:<user_id>` of one subject, as an `Option CacheEntry`
(the stored count and its absolute expiry time) together with the current
time `now`.  `cache.get` returns the default 0 when the key is absent or its
TTL has elapsed; `cache.set key v (timeout := RATE_LIMIT_WINDOW)` stores `v`
with expiry `now + RATE_LIMIT_WINDOW` (Django's `set` always installs a fresh
TTL for the key). -/

def RATE_LIMIT_REQUESTS_DEFAULT : Nat := 5

def RATE_LIMIT_REQUESTS_AMBIENT : Nat := 10

def RATE_LIMIT_WINDOW : Nat := 86400

/-- One stored rate-limit counter: value and absolute expiry time. -/
structure CacheEntry where
  count : Nat
  expiry : Nat
deriving DecidableEq

/-- Django `cache.get(key, 0)` at time `now`: 0 if absent or expired. -/
def cache_get (st : Option CacheEntry) (now : Nat) : Nat :=
  match st with
  | none => 0
  | some e => if now < e.expiry then e.count else 0

/-- Embedding of `check_rate_limit` (views.py 121-147).  Returns the
`(allowed, remaining, limit)` triple together with the new cache state.
`cache.set(cache_key, new_count, timeout=RATE_LIMIT_WINDOW)` stores the
incremented count with a fresh expiry `now + RATE_LIMIT_WINDOW`. -/
def check_rate_limit (st : Option CacheEntry) (now : Nat) (is_ambient_user : Bool) :
    (Bool × Nat × Nat) × Option CacheEntry :=
  let limit := if is_ambient_user then RATE_LIMIT_REQUESTS_AMBIENT else RATE_LIMIT_REQUESTS_DEFAULT
  let current_count := cache_get st now
  if current_count ≥ limit then
    ((false, 0, limit), st)
  else
    ((true, limit - current_count - 1, limit), some ⟨current_count + 1, now + RATE_LIMIT_WINDOW⟩)

/-- The cache state of one subject after `n` calls of `check_rate_limit`, all
made at time `t`, starting from an absent key. -/
def rate_limit_calls (is_ambient_user : Bool) (t : Nat) : Nat → Option CacheEntry
  | 0 => none
  | n + 1 => (check_rate_limit (rate_limit_calls is_ambient_user t n) t is_ambient_user).2

theorem rate_limit_calls_eq (amb : Bool) (t : Nat) (n : Nat) :
    rate_limit_calls amb t n =
      if n = 0 then none
      else some ⟨min n (if amb then RATE_LIMIT_REQUESTS_AMBIENT else RATE_LIMIT_REQUESTS_DEFAULT),
                 t + RATE_LIMIT_WINDOW⟩ := by
  have hL : 0 < (if amb = true then RATE_LIMIT_REQUESTS_AMBIENT else RATE_LIMIT_REQUESTS_DEFAULT) := by
    cases amb <;> decide
  have hlt : t < t + RATE_LIMIT_WINDOW := Nat.lt_add_of_pos_right (by decide)
  induction n with
  | zero => rfl
  | succ n ih =>
    rw [rate_limit_calls, ih, if_neg (Nat.succ_ne_zero n)]
    have hcg : cache_get
        (if n = 0 then none
         else some ⟨min n (if amb = true then RATE_LIMIT_REQUESTS_AMBIENT else RATE_LIMIT_REQUESTS_DEFAULT),
                    t + RATE_LIMIT_WINDOW⟩) t
        = min n (if amb = true then RATE_LIMIT_REQUESTS_AMBIENT else RATE_LIMIT_REQUESTS_DEFAULT) := by
      by_cases hn : n = 0
      · subst hn; simp [cache_get]
      · rw [if_neg hn]; simp only [cache_get]; rw [if_pos hlt]
    simp only [check_rate_limit, hcg]
    by_cases hge : min n (if amb = true then RATE_LIMIT_REQUESTS_AMBIENT else RATE_LIMIT_REQUESTS_DEFAULT)
        ≥ (if amb = true then RATE_LIMIT_REQUESTS_AMBIENT else RATE_LIMIT_REQUESTS_DEFAULT)
    · rw [if_pos hge]
      have hn0 : ¬ n = 0 := by omega
      simp only [if_neg hn0, Option.some.injEq, CacheEntry.mk.injEq]
      exact ⟨by omega, trivial⟩
    · rw [if_neg hge]
      simp only [Option.some.injEq, CacheEntry.mk.injEq]
      exact ⟨by omega, trivial⟩

/-- Claim C1: the counter's TTL is in fact refreshed by every admitted
request, not only by the first one of a window.  Two requests by the same
default-tier subject at times 0 and 80000: after the second request the
stored expiry has moved from 86400 to 166400, and at time 90000 (after the
first window's claimed expiry 86400) the count reads 2 rather than resetting
to 0.  This contradicts the claim (and the source's own comment "set TTL on
first request"): `cache.set(..., timeout=RATE_LIMIT_WINDOW)` runs on every
admitted request. -/
theorem check_rate_limit_ttl_refreshed_every_set :
    (check_rate_limit none 0 false).2 = some ⟨1, 86400⟩
    ∧ (check_rate_limit (some ⟨1, 86400⟩) 80000 false).2 = some ⟨2, 166400⟩
    ∧ cache_get (some ⟨2, 166400⟩) 90000 = 2 := by
  refine ⟨rfl, rfl, rfl⟩

/-- Claim C2: within one window (all calls at the same time `t`, key initially
absent), the Nth call of `check_rate_limit` for a subject is admitted iff
N ≤ limit, where the limit is 10 for an ambient-profile (elevated) user and 5
otherwise; an admitted Nth call returns `(true, limit - N, limit)` (that is,
`limit - (count+1)` with `count = N - 1`), and a call arriving with
`count ≥ limit` returns `(false, 0, limit)` and leaves the stored counter
unchanged. -/
theorem check_rate_limit_nth_call (amb : Bool) (t N : Nat) (hN : 1 ≤ N) :
    ((check_rate_limit (rate_limit_calls amb t (N - 1)) t amb).1.1 = true
      ↔ N ≤ (if amb then 10 else 5))
    ∧ (N ≤ (if amb then 10 else 5) →
        (check_rate_limit (rate_limit_calls amb t (N - 1)) t amb).1
          = (true, (if amb then 10 else 5) - N, if amb then 10 else 5))
    ∧ ((if amb then 10 else 5) < N →
        (check_rate_limit (rate_limit_calls amb t (N - 1)) t amb).1
          = (false, 0, if amb then 10 else 5)
        ∧ (check_rate_limit (rate_limit_calls amb t (N - 1)) t amb).2
          = rate_limit_calls amb t (N - 1)) := by
  have hlt : t < t + RATE_LIMIT_WINDOW := Nat.lt_add_of_pos_right (by decide)
  have hst := rate_limit_calls_eq amb t (N - 1)
  have hcg : cache_get (rate_limit_calls amb t (N - 1)) t
      = min (N - 1) (if amb = true then RATE_LIMIT_REQUESTS_AMBIENT else RATE_LIMIT_REQUESTS_DEFAULT) := by
    rw [hst]
    by_cases hn : N - 1 = 0
    · rw [if_pos hn, hn]; simp [cache_get]
    · rw [if_neg hn]; simp only [cache_get]; rw [if_pos hlt]
  simp only [check_rate_limit, hcg, RATE_LIMIT_REQUESTS_AMBIENT, RATE_LIMIT_REQUESTS_DEFAULT]
  by_cases hge : min (N - 1) (if amb = true then 10 else 5) ≥ (if amb = true then 10 else 5)
  · rw [if_pos hge]
    have hL : 0 < (if amb = true then (10 : Nat) else 5) := by cases amb <;> decide
    refine ⟨by simp; omega, fun h => absurd h (by omega), fun _ => ⟨rfl, rfl⟩⟩
  · rw [if_neg hge]
    have hL : 0 < (if amb = true then (10 : Nat) else 5) := by cases amb <;> decide
    refine ⟨by simp; omega, fun h => ?_, fun h => absurd h (by omega)⟩
    have : (if amb = true then (10 : Nat) else 5) - min (N - 1) (if amb = true then 10 else 5) - 1
        = (if amb = true then (10 : Nat) else 5) - N := by omega
    rw [this]

/-- Witness for C2 at a concrete input: the third call of a default-tier
subject is admitted with 2 requests remaining out of 5. -/
theorem check_rate_limit_nth_call_witness :
    ((check_rate_limit (rate_limit_calls false 0 2) 0 false).1.1 = true
      ↔ 3 ≤ (if false then 10 else 5))
    ∧ (3 ≤ (if false then 10 else 5) →
        (check_rate_limit (rate_limit_calls false 0 2) 0 false).1
          = (true, (if false then 10 else 5) - 3, if false then 10 else 5))
    ∧ ((if false then 10 else 5) < 3 →
        (check_rate_limit (rate_limit_calls false 0 2) 0 false).1
          = (false, 0, if false then 10 else 5)
        ∧ (check_rate_limit (rate_limit_calls false 0 2) 0 false).2
          = rate_limit_calls false 0 2) :=
  check_rate_limit_nth_call false 0 3 (by decide)

/-! ## CORS policy (views.py lines 29-37 and 238-273) -/

/-- The fixed allow-list `ALLOWED_ORIGINS` (views.py 32-37). -/
def ALLOWED_ORIGINS : List PyStr :=
  ["chrome-extension://lmmjfddkgnehcnhelddgmlmookgemeop".toList,
   "https://messages.google.com".toList,
   "https://www.messenger.com".toList,
   "https://web.whatsapp.com".toList]

/-- Embedding of `get_cors_origin` (views.py 238-250).  The argument is the
request's `Origin` header, `none` when absent; `request.headers.get('Origin', '')`
defaults to the empty string. -/
def get_cors_origin (originHeader : Option PyStr) : Option PyStr :=
  let origin := originHeader.getD []
  if origin ∈ ALLOWED_ORIGINS then some origin else none

/-- Embedding of `add_cors_headers` (views.py 253-260): appends the four CORS
headers to the response when `origin` is truthy (non-`None` and non-empty). -/
def add_cors_headers (headers : List (PyStr × PyStr)) (origin : Option PyStr) :
    List (PyStr × PyStr) :=
  match origin with
  | none => headers
  | some o =>
    if o = [] then headers
    else headers ++
      [("Access-Control-Allow-Origin".toList, o),
       ("Access-Control-Allow-Methods".toList, "GET, POST, OPTIONS".toList),
       ("Access-Control-Allow-Headers".toList, "Content-Type, Authorization".toList),
       ("Access-Control-Expose-Headers".toList,
        "X-RateLimit-Remaining, X-RateLimit-Reset, X-RateLimit-Limit, X-Ambient-User".toList)]

/-- The four CORS headers echoed for an allowed origin (the block appended by
`add_cors_headers`), named for use in the statement of claim C6. -/
def cors_header_block (origin : PyStr) : List (PyStr × PyStr) :=
  [("Access-Control-Allow-Origin".toList, origin),
   ("Access-Control-Allow-Methods".toList, "GET, POST, OPTIONS".toList),
   ("Access-Control-Allow-Headers".toList, "Content-Type, Authorization".toList),
   ("Access-Control-Expose-Headers".toList,
    "X-RateLimit-Remaining, X-RateLimit-Reset, X-RateLimit-Limit, X-Ambient-User".toList)]

/-- Claim C6: for every request (any `Origin` header value, including a missing
one), the CORS headers are attached to the response exactly when the origin is
a member of the four-element allow-list, compared by string equality; an
allowed origin is echoed back verbatim, any other origin (subdomains and
scheme variants included, since they are distinct strings) leaves the response
headers unchanged. -/
theorem cors_headers_iff_allowed (o : Option PyStr) (base : List (PyStr × PyStr)) :
    add_cors_headers base (get_cors_origin o)
      = (if (o.getD []) ∈ ALLOWED_ORIGINS then base ++ cors_header_block (o.getD []) else base) := by
  by_cases hm : (o.getD []) ∈ ALLOWED_ORIGINS
  · rw [if_pos hm]
    have hne : o.getD [] ≠ [] := by
      simp only [ALLOWED_ORIGINS, List.mem_cons, List.not_mem_nil, or_false] at hm
      rcases hm with h | h | h | h <;> rw [h] <;> simp
    simp only [get_cors_origin, if_pos hm, add_cors_headers, if_neg hne, cors_header_block]
  · rw [if_neg hm]
    simp only [get_cors_origin, if_neg hm, add_cors_headers]

/-! ## Retrying upstream caller (views.py lines 284-329)

One call of `client.models.generate_content` is an oracle value: either it
returns response text (`ok`) or it raises an exception whose message is
recorded (`err`).  A whole run of `call_gemini_with_retry` is summarised by a
`CallTrace`: the final outcome (`success text` for a normal return, `raised
msg` for an exception propagating out), the number of attempts made, and the
total seconds spent in `time.sleep`. -/

/-- Outcome of one `generate_content` attempt. -/
inductive AttemptResult where
  | ok (text : PyStr)
  | err (msg : PyStr)

/-- Final outcome of `call_gemini_with_retry`. -/
inductive CallResult where
  | success (text : PyStr)
  | raised (msg : PyStr)
deriving DecidableEq

/-- Trace of a `call_gemini_with_retry` run: outcome, number of attempts made,
and total seconds slept. -/
structure CallTrace where
  result : CallResult
  attempts : Nat
  slept : Nat
deriving DecidableEq

/-- The transient signatures tested against a raised exception's message
(views.py 322): `["500", "503", "UNAVAILABLE", "INTERNAL"]`. -/
def transient_codes : List PyStr :=
  ["500".toList, "503".toList, "UNAVAILABLE".toList, "INTERNAL".toList]

/-- `any(code in error_msg for code in [...])` (views.py 322). -/
def has_transient_code (msg : PyStr) : Bool :=
  transient_codes.any (fun c => pyIn c msg)

/-- The in-band error check on returned text (views.py 310-315): the text is
truthy and contains one of the two known error substrings. -/
def inband_error (text : PyStr) : Bool :=
  !text.isEmpty &&
    (pyIn "Error processing request: 500 INTERNAL.".toList text
     || pyIn "503 UNAVAILABLE.".toList text)

/-- Message of the exception raised when a raised transient error exhausts the
attempts (views.py 325): `f"Gemini API error after {max_retries} attempts: {error_msg}"`. -/
def gemini_after_msg (max_retries : Nat) (error_msg : PyStr) : PyStr :=
  "Gemini API error after ".toList ++ (toString max_retries).toList
    ++ " attempts: ".toList ++ error_msg

/-- Message of the exception raised when the loop ends without returning
(views.py 329): in-band transient failures exhaust the attempts this way. -/
def gemini_generic_msg : PyStr :=
  "Gemini API error: max retries exceeded".toList

/-- The retry loop of `call_gemini_with_retry` (views.py 301-329), iterating
over the remaining attempt indices with the attempt and sleep counters
accumulated so far.  On an `ok` response whose text carries an in-band error
signature the code sleeps `attempt + 1` seconds and continues; on a raised
error with a transient code it sleeps `attempt + 1` seconds and either raises
the terminal message (last attempt) or continues; a non-transient raised error
is re-raised at once; the `raise` after the loop produces the generic
message. -/
def call_gemini_loop (stub : Nat → AttemptResult) (max_retries : Nat) :
    List Nat → Nat → Nat → CallTrace
  | [], attempts, slept => ⟨.raised gemini_generic_msg, attempts, slept⟩
  | attempt :: rest, attempts, slept =>
    match stub attempt with
    | .ok text =>
      if inband_error text then
        call_gemini_loop stub max_retries rest (attempts + 1) (slept + (attempt + 1))
      else ⟨.success text, attempts + 1, slept⟩
    | .err msg =>
      if has_transient_code msg then
        if attempt = max_retries - 1 then
          ⟨.raised (gemini_after_msg max_retries msg), attempts + 1, slept + (attempt + 1)⟩
        else
          call_gemini_loop stub max_retries rest (attempts + 1) (slept + (attempt + 1))
      else ⟨.raised msg, attempts + 1, slept⟩

/-- Embedding of `call_gemini_with_retry` (views.py 284-329):
`for attempt in range(max_retries)` over the attempt oracle `stub`. -/
def call_gemini_with_retry (stub : Nat → AttemptResult) (max_retries : Nat) : CallTrace :=
  call_gemini_loop stub max_retries (List.range max_retries) 0 0

/-- An attempt that fails with a transient signature: either raised with a
transient code in the message, or returned text carrying an in-band error
substring. -/
def transient_attempt : AttemptResult → Bool
  | .ok text => inband_error text
  | .err msg => has_transient_code msg

theorem call_gemini_loop_all_transient (stub : Nat → AttemptResult) (m : Nat)
    (hstub : ∀ i, i < m → transient_attempt (stub i) = true) :
    ∀ n k a s, k + n = m →
      (call_gemini_loop stub m (List.range' k n) a s).attempts = a + n
      ∧ (call_gemini_loop stub m (List.range' k n) a s).result =
          (if n = 0 then .raised gemini_generic_msg
           else match stub (m - 1) with
                | .err msg => .raised (gemini_after_msg m msg)
                | .ok _ => .raised gemini_generic_msg) := by
  intro n
  induction n with
  | zero =>
    intro k a s hk
    simp [call_gemini_loop, List.range']
  | succ n ih =>
    intro k a s hk
    rw [List.range'_succ]
    have hkm : k < m := by omega
    have htr := hstub k hkm
    rcases hsk : stub k with text | msg
    · rw [hsk] at htr
      simp only [transient_attempt] at htr
      simp only [call_gemini_loop, hsk, htr, if_true]
      have := ih (k + 1) (a + 1) (s + (k + 1)) (by omega)
      refine ⟨by rw [this.1]; omega, ?_⟩
      rw [this.2]
      by_cases hn : n = 0
      · subst hn
        have hk1 : k = m - 1 := by omega
        rw [if_pos rfl, if_neg (by omega : ¬ (0 + 1 = 0)), ← hk1, hsk]
      · rw [if_neg hn, if_neg (by omega : ¬ (n + 1 = 0))]
    · rw [hsk] at htr
      simp only [transient_attempt] at htr
      simp only [call_gemini_loop, hsk, htr, if_true]
      by_cases hlast : k = m - 1
      · have hn : n = 0 := by omega
        subst hn
        rw [if_pos hlast]
        refine ⟨rfl, ?_⟩
        rw [if_neg (by omega : ¬ (0 + 1 = 0)), ← hlast, hsk]
      · rw [if_neg hlast]
        have hn : ¬ n = 0 := by omega
        have := ih (k + 1) (a + 1) (s + (k + 1)) (by omega)
        refine ⟨by rw [this.1]; omega, ?_⟩
        rw [this.2, if_neg hn, if_neg (by omega : ¬ (n + 1 = 0))]

/-- Counterexample to claim C4 as stated: the stub whose every attempt returns
the in-band error text `"503 UNAVAILABLE."` fails transiently on all three
attempts, yet the terminal exception is the generic
`"Gemini API error: max retries exceeded"`, which does not contain the last
underlying message `"503 UNAVAILABLE."`. -/
theorem call_gemini_inband_exhaustion_drops_message :
    (∀ i, i < 3 → transient_attempt
        ((fun _ => AttemptResult.ok "503 UNAVAILABLE.".toList) i) = true)
    ∧ call_gemini_with_retry (fun _ => AttemptResult.ok "503 UNAVAILABLE.".toList) 3
        = ⟨.raised gemini_generic_msg, 3, 6⟩
    ∧ pyIn "503 UNAVAILABLE.".toList gemini_generic_msg = false := by
  refine ⟨by decide, by decide, by decide⟩

/-- Claim C4 (amended): for every stub whose every attempt fails with a
transient signature (a raised error carrying a transient code, or returned
text carrying an in-band error substring), `call_gemini_with_retry` makes
exactly `max_retries` attempts and raises a terminal error; when the final
attempt's failure is a raised transient error the terminal message is
`"Gemini API error after {max_retries} attempts: {last message}"` and carries
the last underlying message as a substring, while a final in-band text
failure yields the generic max-retries-exceeded message instead. -/
theorem call_gemini_all_transient_exhausts (stub : Nat → AttemptResult) (m : Nat)
    (hm : 1 ≤ m) (hstub : ∀ i, i < m → transient_attempt (stub i) = true) :
    (call_gemini_with_retry stub m).attempts = m
    ∧ (∃ msg, (call_gemini_with_retry stub m).result = .raised msg)
    ∧ (∀ lmsg, stub (m - 1) = .err lmsg →
        (call_gemini_with_retry stub m).result = .raised (gemini_after_msg m lmsg)
        ∧ pyIn lmsg (gemini_after_msg m lmsg) = true)
    ∧ (∀ ltext, stub (m - 1) = .ok ltext →
        (call_gemini_with_retry stub m).result = .raised gemini_generic_msg) := by
  have h := call_gemini_loop_all_transient stub m hstub m 0 0 0 (by omega)
  rw [call_gemini_with_retry, List.range_eq_range']
  have hm0 : ¬ m = 0 := by omega
  refine ⟨by rw [h.1]; omega, ?_, ?_, ?_⟩
  · rw [h.2, if_neg hm0]
    rcases stub (m - 1) with text | msg
    · exact ⟨gemini_generic_msg, rfl⟩
    · exact ⟨gemini_after_msg m msg, rfl⟩
  · intro lmsg hlast
    rw [h.2, if_neg hm0, hlast]
    exact ⟨rfl, pyIn_append_left _ _⟩
  · intro ltext hlast
    rw [h.2, if_neg hm0, hlast]

/-- Witness for C4 (amended) at a concrete input: the stub that always raises
`"500 boom"` exhausts after exactly 3 attempts and the terminal message
carries the last underlying message. -/
theorem call_gemini_all_transient_exhausts_witness :
    (call_gemini_with_retry (fun _ => AttemptResult.err "500 boom".toList) 3).attempts = 3
    ∧ (call_gemini_with_retry (fun _ => AttemptResult.err "500 boom".toList) 3).result
        = .raised (gemini_after_msg 3 "500 boom".toList)
    ∧ pyIn "500 boom".toList (gemini_after_msg 3 "500 boom".toList) = true := by
  have h := call_gemini_all_transient_exhausts
    (fun _ => AttemptResult.err "500 boom".toList) 3 (by decide) (by decide)
  exact ⟨h.1, (h.2.2.1 "500 boom".toList rfl).1, (h.2.2.1 "500 boom".toList rfl).2⟩

/-- Claim C5: when the first attempt raises an error whose message contains
none of the transient signatures, `call_gemini_with_retry` re-raises that
very message immediately: exactly one attempt, zero seconds slept, no retry. -/
theorem call_gemini_nontransient_raises_immediately (stub : Nat → AttemptResult)
    (m : Nat) (msg : PyStr) (hm : 1 ≤ m) (h0 : stub 0 = .err msg)
    (hnt : has_transient_code msg = false) :
    call_gemini_with_retry stub m = ⟨.raised msg, 1, 0⟩ := by
  obtain ⟨m', rfl⟩ : ∃ m', m = m' + 1 := ⟨m - 1, by omega⟩
  rw [call_gemini_with_retry, List.range_eq_range', List.range'_succ]
  simp only [call_gemini_loop, h0, hnt]
  rfl

/-- Witness for C5 at a concrete input: the stub that raises `"bad request"`
(no transient code in the message) on every attempt, with `max_retries = 3`. -/
theorem call_gemini_nontransient_raises_immediately_witness :
    call_gemini_with_retry (fun _ => AttemptResult.err "bad request".toList) 3
      = ⟨.raised "bad request".toList, 1, 0⟩ :=
  call_gemini_nontransient_raises_immediately
    (fun _ => AttemptResult.err "bad request".toList) 3 "bad request".toList
    (by decide) rfl (by decide)

/-! ## Error response envelopes (views.py, all JsonResponse error bodies)

Every `JsonResponse` error constructed in views.py, enumerated by its
construction site; parametrised sites carry the interpolated message.  Field
order and status codes follow the source. -/

/-- The error-response construction sites of views.py: the three 401s and the
429 of `require_google_auth` (160-235), the five error returns of
`extract_event` (365-439), the five of `find_matches` (484-569), and the
three 401s of `check_profile` (618-652). -/
inductive ErrorSite where
  | authMissingHeader
  | authInvalidFormat
  | authInvalidToken
  | authRateLimited (is_ambient_user : Bool)
  | extractInvalidJson (msg : PyStr)
  | extractInvalidRequest (msg : PyStr)
  | extractParseFail (msg : PyStr)
  | extractConfigError (msg : PyStr)
  | extractInternal (msg : PyStr)
  | matchInvalidJson (msg : PyStr)
  | matchInvalidRequest (msg : PyStr)
  | matchParseFail (msg : PyStr)
  | matchConfigError (msg : PyStr)
  | matchInternal (msg : PyStr)
  | profileMissingHeader
  | profileInvalidFormat
  | profileInvalidToken

/-- The body and status of each error `JsonResponse`, field for field from
views.py. -/
def errorResponse : ErrorSite → JResponse
  | .authMissingHeader =>
    ([("success".toList, .bool false),
      ("error".toList, .str "Missing or invalid Authorization header".toList),
      ("events".toList, .null),
      ("match_result".toList, .null)], 401)
  | .authInvalidFormat =>
    ([("success".toList, .bool false),
      ("error".toList, .str "Invalid token format".toList),
      ("events".toList, .null),
      ("match_result".toList, .null)], 401)
  | .authInvalidToken =>
    ([("success".toList, .bool false),
      ("error".toList, .str "Invalid or expired Google token. Please reconnect your calendar.".toList),
      ("events".toList, .null),
      ("match_result".toList, .null)], 401)
  | .authRateLimited amb =>
    ([("success".toList, .bool false),
      ("error".toList, .str "Rate limit exceeded. Please try again later.".toList),
      ("events".toList, .null),
      ("match_result".toList, .null),
      ("is_ambient_user".toList, .bool amb)], 429)
  | .extractInvalidJson msg =>
    ([("success".toList, .bool false),
      ("events".toList, .null),
      ("error".toList, .str ("Invalid JSON: ".toList ++ msg))], 400)
  | .extractInvalidRequest msg =>
    ([("success".toList, .bool false),
      ("events".toList, .null),
      ("error".toList, .str msg)], 400)
  | .extractParseFail msg =>
    ([("success".toList, .bool false),
      ("events".toList, .null),
      ("error".toList, .str ("Failed to parse AI response: ".toList ++ msg))], 500)
  | .extractConfigError msg =>
    ([("success".toList, .bool false),
      ("events".toList, .null),
      ("error".toList, .str msg)], 500)
  | .extractInternal msg =>
    ([("success".toList, .bool false),
      ("events".toList, .null),
      ("error".toList, .str ("Internal error: ".toList ++ msg))], 500)
  | .matchInvalidJson msg =>
    ([("success".toList, .bool false),
      ("match_result".toList, .null),
      ("error".toList, .str ("Invalid JSON: ".toList ++ msg))], 400)
  | .matchInvalidRequest msg =>
    ([("success".toList, .bool false),
      ("match_result".toList, .null),
      ("error".toList, .str msg)], 400)
  | .matchParseFail msg =>
    ([("success".toList, .bool false),
      ("match_result".toList, .null),
      ("error".toList, .str ("Failed to parse AI response: ".toList ++ msg))], 500)
  | .matchConfigError msg =>
    ([("success".toList, .bool false),
      ("match_result".toList, .null),
      ("error".toList, .str msg)], 500)
  | .matchInternal msg =>
    ([("success".toList, .bool false),
      ("match_result".toList, .null),
      ("error".toList, .str ("Internal error: ".toList ++ msg))], 500)
  | .profileMissingHeader =>
    ([("success".toList, .bool false),
      ("is_ambient_user".toList, .bool false),
      ("email".toList, .null),
      ("error".toList, .str "Missing or invalid Authorization header".toList)], 401)
  | .profileInvalidFormat =>
    ([("success".toList, .bool false),
      ("is_ambient_user".toList, .bool false),
      ("email".toList, .null),
      ("error".toList, .str "Invalid token format".toList)], 401)
  | .profileInvalidToken =>
    ([("success".toList, .bool false),
      ("is_ambient_user".toList, .bool false),
      ("email".toList, .null),
      ("error".toList, .str "Invalid or expired Google token. Please reconnect your calendar.".toList)], 401)

/-- The per-endpoint data fields of the envelope: `events` (extract),
`match_result` (match), `email` (profile-check). -/
def data_field_keys : List PyStr :=
  ["events".toList, "match_result".toList, "email".toList]

/-- A data field is either absent from the body or explicitly null. -/
def null_or_absent (fields : List (PyStr × JVal)) (k : PyStr) : Bool :=
  match getField fields k with
  | none => true
  | some .null => true
  | some _ => false

/-- A data field is present with a null value. -/
def present_null (fields : List (PyStr × JVal)) (k : PyStr) : Bool :=
  match getField fields k with
  | some .null => true
  | _ => false

/-- The envelope shape claimed for error responses: a `success` field equal to
false, every data field that appears is null, at least one data field
appears (null-valued), and the `error` field holds a string. -/
def envelope_ok (r : JResponse) : Bool :=
  (match getField r.1 "success".toList with
   | some (.bool false) => true
   | _ => false)
  && data_field_keys.all (fun k => null_or_absent r.1 k)
  && data_field_keys.any (fun k => present_null r.1 k)
  && (match getField r.1 "error".toList with
      | some (.str _) => true
      | _ => false)

/-- Claim C8: every error response constructed by the gateway's endpoints has
the same top-level envelope shape as success: `success` equal to false, a
null-valued data field (`events`, `match_result` or `email`, with no data
field ever non-null), and a non-null error string. -/
theorem error_envelope_uniform (site : ErrorSite) :
    envelope_ok (errorResponse site) = true := by
  cases site <;> rfl

/-! ## Token verification and the auth gate (views.py lines 49-235, 595-670)

The two outbound Google calls are oracle values carried by a `GoogleNet`:
each is either an HTTP response (status plus the parsed JSON fields the code
reads) or a timeout/exception.  A `NetLog` counts how many times each
endpoint was called during a run, so "no network call is made" is the log
`⟨0, 0⟩`. -/

/-- Outcome of one outbound `requests.get`. -/
inductive HttpOutcome (α : Type) where
  | ok (status : Nat) (body : α)
  | timeout
  | exc

/-- The fields of the userinfo JSON that the code reads: `sub` (absent means
`'sub' not in userinfo`) and `email` (read with `.get('email', '')`). -/
structure UserinfoBody where
  sub : Option PyStr
  email : Option PyStr

/-- The field of the tokeninfo JSON that the code reads: `aud`. -/
structure TokeninfoBody where
  aud : Option PyStr

/-- Oracle for the two Google endpoints during one request. -/
structure GoogleNet where
  userinfo : HttpOutcome UserinfoBody
  tokeninfo : HttpOutcome TokeninfoBody

/-- Count of calls made to the identity-info and token-introspection
endpoints. -/
structure NetLog where
  userinfoCalls : Nat
  tokeninfoCalls : Nat
deriving DecidableEq

/-- `GOOGLE_CLIENT_ID` (views.py 41). -/
def GOOGLE_CLIENT_ID : PyStr :=
  "636710672879-jtimq18mggv3ev79itq5uq0f1tpdmf5d.apps.googleusercontent.com".toList

/-- Embedding of `verify_google_token` (views.py 49-97): userinfo call first
(non-200, missing `sub`, timeout or exception all yield `None`), then the
tokeninfo call (non-200 or audience mismatch yield `None`).  The returned
`NetLog` records which of the two calls were made. -/
def verify_google_token (net : GoogleNet) : Option UserinfoBody × NetLog :=
  match net.userinfo with
  | .timeout => (none, ⟨1, 0⟩)
  | .exc => (none, ⟨1, 0⟩)
  | .ok status body =>
    if status ≠ 200 then (none, ⟨1, 0⟩)
    else if body.sub = none then (none, ⟨1, 0⟩)
    else
      match net.tokeninfo with
      | .timeout => (none, ⟨1, 1⟩)
      | .exc => (none, ⟨1, 1⟩)
      | .ok status2 tbody =>
        if status2 ≠ 200 then (none, ⟨1, 1⟩)
        else if tbody.aud ≠ some GOOGLE_CLIENT_ID then (none, ⟨1, 1⟩)
        else (some body, ⟨1, 1⟩)

/-- Embedding of `check_ambient_profile` (views.py 100-118); the database
lookup is the oracle `lookup` (its failure mode, returning `False`, is a
possible value of the oracle). -/
def check_ambient_profile (lookup : PyStr → Bool) (email : PyStr) : Bool :=
  if email = [] then false else lookup email

/-- Outcome of the `require_google_auth` gate: an error response, or
clearance into the wrapped view with the request attributes and rate-limit
header values. -/
inductive GateResult where
  | reject (resp : JResponse)
  | proceed (user_id : PyStr) (is_ambient_user : Bool) (remaining : Nat) (limit : Nat)

/-- Embedding of the non-OPTIONS path of `require_google_auth`'s wrapper
(views.py 160-233): Authorization-header shape check, token length check,
`verify_google_token`, `check_ambient_profile`, `check_rate_limit`; the
single-subject cache state and current time are passed explicitly. -/
def require_google_auth (net : GoogleNet) (lookup : PyStr → Bool)
    (st : Option CacheEntry) (now : Nat) (auth_header : PyStr) :
    GateResult × Option CacheEntry × NetLog :=
  if pyStartswith "Bearer ".toList auth_header then
    if auth_header.drop 7 = [] ∨ (auth_header.drop 7).length < 20 then
      (.reject (errorResponse .authInvalidFormat), st, ⟨0, 0⟩)
    else
      match verify_google_token net with
      | (none, log) => (.reject (errorResponse .authInvalidToken), st, log)
      | (some userinfo, log) =>
        let user_email := userinfo.email.getD []
        let is_amb := check_ambient_profile lookup user_email
        match check_rate_limit st now is_amb with
        | ((allowed, remaining, limit), st2) =>
          if allowed then
            (.proceed (userinfo.sub.getD []) is_amb remaining limit, st2, log)
          else
            (.reject (errorResponse (.authRateLimited is_amb)), st2, log)
  else (.reject (errorResponse .authMissingHeader), st, ⟨0, 0⟩)

/-- Where the first '@' splits a string: Python `s.split('@', 1)` as the pair
(before the first '@', after it).  When no '@' occurs the whole string is
returned as the first component (callers guard on `'@' in s`). -/
def splitLocalDomain : PyStr → PyStr × PyStr
  | [] => ([], [])
  | c :: cs =>
    if c = '@' then ([], cs)
    else ((splitLocalDomain cs).1.cons c, (splitLocalDomain cs).2)

/-- Embedding of the masking step of `check_profile` (views.py 656-661).
`none` models the unhandled `IndexError` that `local_part[0]` raises when the
local part is empty; every other case returns the masked string the f-strings
build. -/
def mask_email (user_email : PyStr) : Option PyStr :=
  if user_email ≠ [] ∧ '@' ∈ user_email then
    if (splitLocalDomain user_email).1.length > 3 then
      some ((splitLocalDomain user_email).1.take 3 ++ "***@".toList
            ++ (splitLocalDomain user_email).2)
    else
      match (splitLocalDomain user_email).1 with
      | [] => none
      | c :: _ => some ([c] ++ "***@".toList ++ (splitLocalDomain user_email).2)
  else some "***".toList

/-- The success body of `check_profile` (views.py 666-671). -/
def profile_success_response (is_ambient_user : Bool) (masked_email : PyStr) : JResponse :=
  ([("success".toList, .bool true),
    ("is_ambient_user".toList, .bool is_ambient_user),
    ("email".toList, .str masked_email),
    ("error".toList, .null)], 200)

/-- Embedding of the non-OPTIONS path of `check_profile` (views.py 618-671):
header checks, `verify_google_token`, email masking, profile lookup.  The
first component is `none` when the masking step raises (no response of any
shape is produced); otherwise it is the `JsonResponse`. -/
def check_profile (net : GoogleNet) (lookup : PyStr → Bool) (auth_header : PyStr) :
    Option JResponse × NetLog :=
  if pyStartswith "Bearer ".toList auth_header then
    if auth_header.drop 7 = [] ∨ (auth_header.drop 7).length < 20 then
      (some (errorResponse .profileInvalidFormat), ⟨0, 0⟩)
    else
      match verify_google_token net with
      | (none, log) => (some (errorResponse .profileInvalidToken), log)
      | (some userinfo, log) =>
        match mask_email (userinfo.email.getD []) with
        | none => (none, log)
        | some masked_email =>
          (some (profile_success_response
                   (check_ambient_profile lookup (userinfo.email.getD []))
                   masked_email), log)
  else (some (errorResponse .profileMissingHeader), ⟨0, 0⟩)

/-- Claim C3: for every token shorter than 20 characters, both the
`require_google_auth` gate and `check_profile` reject the request with the
401 "Invalid token format" response while the network-call log stays
`⟨0, 0⟩`: neither the identity-info call nor the token-introspection call is
made, whatever the network oracle would have answered. -/
theorem short_token_rejected_before_network (net : GoogleNet) (lookup : PyStr → Bool)
    (st : Option CacheEntry) (now : Nat) (token : PyStr) (h : token.length < 20) :
    require_google_auth net lookup st now ("Bearer ".toList ++ token)
      = (.reject (errorResponse .authInvalidFormat), st, ⟨0, 0⟩)
    ∧ check_profile net lookup ("Bearer ".toList ++ token)
      = (some (errorResponse .profileInvalidFormat), ⟨0, 0⟩) := by
  have hsw : pyStartswith "Bearer ".toList ("Bearer ".toList ++ token) = true :=
    pyStartswith_append _ _
  have hdrop : ("Bearer ".toList ++ token).drop 7 = token := rfl
  have hcond : ("Bearer ".toList ++ token).drop 7 = []
      ∨ (("Bearer ".toList ++ token).drop 7).length < 20 := by
    rw [hdrop]; exact Or.inr h
  refine ⟨?_, ?_⟩
  · simp only [require_google_auth, hsw, if_true, if_pos hcond]
  · simp only [check_profile, hsw, if_true, if_pos hcond]

/-- Witness for C3 at a concrete input: the 5-character token `"short"`
against a network oracle that would have accepted it. -/
theorem short_token_rejected_before_network_witness :
    require_google_auth
        ⟨.ok 200 ⟨some "110248495921238986420".toList, some "a@b.c".toList⟩,
         .ok 200 ⟨some GOOGLE_CLIENT_ID⟩⟩
        (fun _ => false) none 0 ("Bearer ".toList ++ "short".toList)
      = (.reject (errorResponse .authInvalidFormat), none, ⟨0, 0⟩)
    ∧ check_profile
        ⟨.ok 200 ⟨some "110248495921238986420".toList, some "a@b.c".toList⟩,
         .ok 200 ⟨some GOOGLE_CLIENT_ID⟩⟩
        (fun _ => false) ("Bearer ".toList ++ "short".toList)
      = (some (errorResponse .profileInvalidFormat), ⟨0, 0⟩) :=
  short_token_rejected_before_network
    ⟨.ok 200 ⟨some "110248495921238986420".toList, some "a@b.c".toList⟩,
     .ok 200 ⟨some GOOGLE_CLIENT_ID⟩⟩
    (fun _ => false) none 0 "short".toList (by decide)

/-- The masked-email shape stated by the spec: first 3 characters of the
local part when it is longer than 3 characters, its first character
otherwise, then `"***"`, `'@'` and the full domain. -/
def claim_masked_email (email : PyStr) : PyStr :=
  if (splitLocalDomain email).1.length > 3 then
    (splitLocalDomain email).1.take 3 ++ "***@".toList ++ (splitLocalDomain email).2
  else
    (splitLocalDomain email).1.take 1 ++ "***@".toList ++ (splitLocalDomain email).2

theorem mask_email_eq_claim (email : PyStr) (hat : '@' ∈ email)
    (hloc : (splitLocalDomain email).1 ≠ []) :
    mask_email email = some (claim_masked_email email) := by
  have hne : email ≠ [] := List.ne_nil_of_mem hat
  rw [mask_email, if_pos ⟨hne, hat⟩, claim_masked_email]
  by_cases hlen : (splitLocalDomain email).1.length > 3
  · rw [if_pos hlen, if_pos hlen]
  · rw [if_neg hlen, if_neg hlen]
    rcases hsplit : (splitLocalDomain email).1 with _ | ⟨c, rest⟩
    · exact absurd hsplit hloc
    · simp [List.take]

/-- Counterexample to claim C9 as stated: the email `"@x.com"` contains '@'
(with an empty local part, of length ≤ 3), yet the masking step of
`check_profile` produces no masked email at all — `mask_email` has no
result, modelling the `IndexError` that `local_part[0]` raises. -/
theorem mask_email_empty_local_no_result :
    '@' ∈ "@x.com".toList
    ∧ (splitLocalDomain "@x.com".toList).1.length ≤ 3
    ∧ ¬ ∃ s, mask_email "@x.com".toList = some s := by
  refine ⟨by decide, by decide, ?_⟩
  rintro ⟨s, hs⟩
  have h0 : mask_email "@x.com".toList = none := rfl
  rw [h0] at hs
  exact Option.noConfusion hs

/-- Claim C9 (amended): for every verified email containing '@' whose local
part is non-empty, `check_profile` returns the success response whose
`email` field is the first 3 characters of the local part, `"***"` and the
full domain when the local part is longer than 3 characters, and the first
character, `"***"` and the full domain when its length is between 1 and 3.
(The amendment excludes the empty local part, where the code raises instead
of returning: see the counterexample and claim C10.) -/
theorem check_profile_masked_email (net : GoogleNet) (lookup : PyStr → Bool)
    (token sub email : PyStr) (tbody : TokeninfoBody)
    (hui : net.userinfo = .ok 200 ⟨some sub, some email⟩)
    (hti : net.tokeninfo = .ok 200 tbody)
    (haud : tbody.aud = some GOOGLE_CLIENT_ID)
    (htok : ¬ (token = [] ∨ token.length < 20))
    (hat : '@' ∈ email) (hloc : (splitLocalDomain email).1 ≠ []) :
    check_profile net lookup ("Bearer ".toList ++ token)
      = (some (profile_success_response (check_ambient_profile lookup email)
                 (claim_masked_email email)), ⟨1, 1⟩) := by
  have hsw : pyStartswith "Bearer ".toList ("Bearer ".toList ++ token) = true :=
    pyStartswith_append _ _
  have hdrop : ("Bearer ".toList ++ token).drop 7 = token := rfl
  have hver : verify_google_token net = (some ⟨some sub, some email⟩, ⟨1, 1⟩) := by
    rw [verify_google_token, hui, hti]
    simp [haud]
  have hmask := mask_email_eq_claim email hat hloc
  simp only [check_profile, hsw, if_true, hdrop, if_neg htok, hver, Option.getD, hmask]

/-- Witness for C9 (amended) at the two concrete emails named by the spec:
`"abcdef@x.com"` masks to `"abc***@x.com"` and `"ab@x.com"` masks to
`"a***@x.com"`. -/
theorem check_profile_masked_email_witness :
    check_profile
        ⟨.ok 200 ⟨some "110248495921238986420".toList, some "abcdef@x.com".toList⟩,
         .ok 200 ⟨some GOOGLE_CLIENT_ID⟩⟩
        (fun _ => false) ("Bearer ".toList ++ "aaaaaaaaaaaaaaaaaaaa".toList)
      = (some (profile_success_response false "abc***@x.com".toList), ⟨1, 1⟩)
    ∧ check_profile
        ⟨.ok 200 ⟨some "110248495921238986420".toList, some "ab@x.com".toList⟩,
         .ok 200 ⟨some GOOGLE_CLIENT_ID⟩⟩
        (fun _ => false) ("Bearer ".toList ++ "aaaaaaaaaaaaaaaaaaaa".toList)
      = (some (profile_success_response false "a***@x.com".toList), ⟨1, 1⟩) :=
  ⟨check_profile_masked_email _ (fun _ => false) "aaaaaaaaaaaaaaaaaaaa".toList
     "110248495921238986420".toList "abcdef@x.com".toList ⟨some GOOGLE_CLIENT_ID⟩
     rfl rfl rfl (by decide) (by decide) (by decide),
   check_profile_masked_email _ (fun _ => false) "aaaaaaaaaaaaaaaaaaaa".toList
     "110248495921238986420".toList "ab@x.com".toList ⟨some GOOGLE_CLIENT_ID⟩
     rfl rfl rfl (by decide) (by decide) (by decide)⟩

/-- Claim C10: the masking step is not total.  For the verified email
`"@x.com"` (which contains '@' but has an empty local part) and an otherwise
valid request, `check_profile` produces no response at all — neither its
success body nor any of its error bodies — because `local_part[0]` raises an
unhandled `IndexError`. -/
theorem check_profile_crashes_on_empty_local_part :
    '@' ∈ "@x.com".toList
    ∧ mask_email "@x.com".toList = none
    ∧ (check_profile
         ⟨.ok 200 ⟨some "110248495921238986420".toList, some "@x.com".toList⟩,
          .ok 200 ⟨some GOOGLE_CLIENT_ID⟩⟩
         (fun _ => false) ("Bearer ".toList ++ "aaaaaaaaaaaaaaaaaaaa".toList)).1
      = none := by
  refine ⟨by decide, rfl, rfl⟩

/-! ## Match-request validation (validators.py lines 82-211) and
`find_matches` (views.py lines 442-569) -/

/-- `valid_event_types` (validators.py 114-119). -/
def valid_event_types : List PyStr :=
  ["full_potential_event_details".toList,
   "incomplete_event_details".toList,
   "not_a_desired_event".toList,
   "not_an_event".toList]

/-- `data.get('event_type') in valid_event_types` (validators.py 121): only a
string value can equal one of the allowed names. -/
def is_valid_event_type (v : Option JVal) : Bool :=
  match v with
  | some (.str s) => decide (s ∈ valid_event_types)
  | _ => false

/-- The start/end check shared by the validators (validators.py 129-132,
166-169): the field is present, not `None`, and not an object. -/
def bad_dt_field (fields : List (PyStr × JVal)) (k : PyStr) : Bool :=
  match getField fields k with
  | none => false
  | some .null => false
  | some (.obj _) => false
  | some _ => true

/-- Embedding of `validate_extracted_event` (validators.py 82-134). -/
def validate_extracted_event (data : JVal) : Bool × Option PyStr :=
  match data with
  | .obj fields =>
    if (getField fields "event_type".toList).isNone then
      (false, some "Missing required field: event_type".toList)
    else if !(is_valid_event_type (getField fields "event_type".toList)) then
      (false, some "Invalid event_type. Must be one of: full_potential_event_details, incomplete_event_details, not_a_desired_event, not_an_event".toList)
    else if (getField fields "summary".toList).isNone then
      (false, some "Missing required field: summary".toList)
    else if bad_dt_field fields "start".toList then
      (false, some "Field 'start' must be an object".toList)
    else if bad_dt_field fields "end".toList then
      (false, some "Field 'end' must be an object".toList)
    else (true, none)
  | _ => (false, some "Event must be a JSON object".toList)

/-- Embedding of `validate_calendar_event` (validators.py 137-171). -/
def validate_calendar_event (data : JVal) : Bool × Option PyStr :=
  match data with
  | .obj fields =>
    if bad_dt_field fields "start".toList then
      (false, some "Field 'start' must be an object".toList)
    else if bad_dt_field fields "end".toList then
      (false, some "Field 'end' must be an object".toList)
    else (true, none)
  | _ => (false, some "Calendar event must be a JSON object".toList)

/-- The `for idx, cal_event in enumerate(data['calendar_events'])` loop of
`validate_match_request` (validators.py 206-209). -/
def validate_calendar_events_loop : Nat → List JVal → Bool × Option PyStr
  | _, [] => (true, none)
  | idx, e :: rest =>
    match validate_calendar_event e with
    | (true, _) => validate_calendar_events_loop (idx + 1) rest
    | (false, err) =>
      (false, some ("Invalid calendar_event at index ".toList ++ (toString idx).toList
                    ++ ": ".toList ++ err.getD []))

/-- `isinstance(..., list)` on a looked-up JSON value. -/
def is_json_array (v : Option JVal) : Bool :=
  match v with
  | some (.arr _) => true
  | _ => false

/-- The elements of a JSON array value. -/
def json_arr_elems (v : JVal) : List JVal :=
  match v with
  | .arr l => l
  | _ => []

/-- Embedding of `validate_match_request` (validators.py 174-211). -/
def validate_match_request (data : JVal) : Bool × Option PyStr :=
  match data with
  | .obj fields =>
    if (getField fields "event".toList).isNone then
      (false, some "Missing required field: event".toList)
    else if (getField fields "calendar_events".toList).isNone then
      (false, some "Missing required field: calendar_events".toList)
    else if !(is_json_array (getField fields "calendar_events".toList)) then
      (false, some "Field 'calendar_events' must be an array".toList)
    else
      match validate_extracted_event ((getField fields "event".toList).getD .null) with
      | (false, err) => (false, some ("Invalid event: ".toList ++ err.getD []))
      | (true, _) =>
        validate_calendar_events_loop 0
          (json_arr_elems ((getField fields "calendar_events".toList).getD .null))
  | _ => (false, some "Request must be a JSON object".toList)

/-- The deterministic no-match body of `find_matches` (views.py 508-520). -/
def no_match_response (is_ambient_user : Bool) : JResponse :=
  ([("success".toList, .bool true),
    ("match_result".toList,
     .obj [("match_data".toList,
            .obj [("match_type".toList, .str "no_match".toList),
                  ("matched_event".toList, .null),
                  ("matched_event_id".toList, .null)])]),
    ("error".toList, .null),
    ("is_ambient_user".toList, .bool is_ambient_user)], 200)

/-- The success body of `find_matches` (views.py 549-554). -/
def match_success_response (match_result : JVal) (is_ambient_user : Bool) : JResponse :=
  ([("success".toList, .bool true),
    ("match_result".toList, match_result),
    ("error".toList, .null),
    ("is_ambient_user".toList, .bool is_ambient_user)], 200)

/-- Embedding of the view body of `find_matches` (views.py 484-569), after
the auth gate.  `body` is the parsed request body (`Except.error` is a
`json.JSONDecodeError` with its message); `api_key` is
`settings.DEFAULT_API_KEY`; `build_prompt` is the opaque
`generate_event_match_instructions` collaborator; `upstream` is one run of
`call_gemini_with_retry` on the built prompt (`raised` propagates to the
catch-all handler); `parse_json` is `sanitize_and_parse_json`
(`Except.error` is an exception with its message).  The second component
records whether the upstream caller was invoked. -/
def find_matches (api_key : Option PyStr) (build_prompt : JVal → List JVal → PyStr)
    (upstream : PyStr → CallResult) (parse_json : PyStr → Except PyStr JVal)
    (is_ambient_user : Bool) (body : Except PyStr JVal) : JResponse × Bool :=
  match body with
  | .error msg => (errorResponse (.matchInvalidJson msg), false)
  | .ok data =>
    match validate_match_request data with
    | (false, err) => (errorResponse (.matchInvalidRequest (err.getD [])), false)
    | (true, _) =>
      if (json_arr_elems ((jGet data "calendar_events".toList).getD .null)).length = 0 then
        (no_match_response is_ambient_user, false)
      else
        match api_key with
        | none =>
          (errorResponse (.matchConfigError "DEFAULT_API_KEY not configured in settings".toList),
           false)
        | some _ =>
          match upstream (build_prompt ((jGet data "event".toList).getD .null)
                            (json_arr_elems ((jGet data "calendar_events".toList).getD .null))) with
          | .raised msg => (errorResponse (.matchInternal msg), true)
          | .success text =>
            match parse_json text with
            | .error msg => (errorResponse (.matchParseFail msg), true)
            | .ok match_result => (match_success_response match_result is_ambient_user, true)

/-- Claim C7: every valid match request whose `calendar_events` list is empty
yields the deterministic success response with `match_type` `"no_match"` and
null matched event and id, and the upstream caller is never invoked, whatever
the collaborators would have answered. -/
theorem find_matches_empty_calendar_no_upstream (api_key : Option PyStr)
    (build_prompt : JVal → List JVal → PyStr) (upstream : PyStr → CallResult)
    (parse_json : PyStr → Except PyStr JVal) (amb : Bool) (data : JVal)
    (hvalid : (validate_match_request data).1 = true)
    (hempty : jGet data "calendar_events".toList = some (JVal.arr [])) :
    find_matches api_key build_prompt upstream parse_json amb (.ok data)
      = (no_match_response amb, false) := by
  rcases hval : validate_match_request data with ⟨b, err⟩
  rw [hval] at hvalid
  simp only at hvalid
  subst hvalid
  simp only [find_matches, hval, hempty, Option.getD, json_arr_elems, List.length_nil,
    if_pos rfl, if_true]

/-- Witness for C7 at a concrete input: a minimal valid match request with an
empty `calendar_events` array, against collaborators that would have
answered. -/
theorem find_matches_empty_calendar_no_upstream_witness :
    find_matches (some "key".toList) (fun _ _ => []) (fun _ => .success "x".toList)
        (fun _ => .ok .null) false
        (.ok (.obj [("event".toList,
                     .obj [("event_type".toList, .str "not_an_event".toList),
                           ("summary".toList, .str "coffee".toList)]),
                    ("calendar_events".toList, .arr [])]))
      = (no_match_response false, false) :=
  find_matches_empty_calendar_no_upstream (some "key".toList) (fun _ _ => [])
    (fun _ => .success "x".toList) (fun _ => .ok .null) false
    (.obj [("event".toList,
            .obj [("event_type".toList, .str "not_an_event".toList),
                  ("summary".toList, .str "coffee".toList)]),
           ("calendar_events".toList, .arr [])])
    rfl rfl
